import Mathlib

/-!
Shallow embedding of the geospatial core of `src/app.py` (Streamlit mosquito
dashboard).  Geometries are modelled as closed axis-aligned rectangles with
integer coordinates (a concrete, executable class of shapely polygons);
distances are compared through squared Euclidean distance, which orders
pairs of geometries exactly as distance itself does.  Feature tables (GeoDataFrames) are lists
of features, each a geometry plus an association list of named attribute
values, together with a CRS tag.  Fallible Python operations are modelled
with `Except`; the bare `except:` handler of `preprocess_data` is modelled by
an error-injection parameter standing for whether the geometry library raises
inside the `try` body.
-/

/-- A planar point with integer coordinates (shapely `Point`). -/
abbrev Pt := ℤ × ℤ

/-- Squaring, used for squared Euclidean distances. -/
def sqr (a : ℤ) : ℤ := a * a

/-- Squared Euclidean distance between two points. -/
def sqDistPts (p q : Pt) : ℤ := sqr (p.1 - q.1) + sqr (p.2 - q.2)

/-- Distance from the coordinate `x` to the closed interval `[l, u]`. -/
def gapI (l u x : ℤ) : ℤ := max 0 (max (l - x) (x - u))

/-- Distance between the closed intervals `[l1, u1]` and `[l2, u2]`. -/
def gapII (l1 u1 l2 u2 : ℤ) : ℤ := max 0 (max (l1 - u2) (l2 - u1))

/-- A closed axis-aligned rectangle: the geometry class used to model the
shapely polygons carried by the GeoDataFrames of `app.py`. -/
structure Rect where
  x1 : ℤ
  x2 : ℤ
  y1 : ℤ
  y2 : ℤ
deriving DecidableEq

/-- A rectangle is a genuine (nonempty) polygon when its bounds are ordered. -/
def Rect.valid (r : Rect) : Prop := r.x1 ≤ r.x2 ∧ r.y1 ≤ r.y2

instance (r : Rect) : Decidable r.valid := by
  unfold Rect.valid; infer_instance

/-- Membership of a point in a closed rectangle (shapely closed containment,
the point set of the polygon). -/
def inRect (p : Pt) (r : Rect) : Prop :=
  r.x1 ≤ p.1 ∧ p.1 ≤ r.x2 ∧ r.y1 ≤ p.2 ∧ p.2 ≤ r.y2

instance (p : Pt) (r : Rect) : Decidable (inRect p r) := by
  unfold inRect; infer_instance

/-- Strict interior membership (shapely `contains` for a point strictly
inside the polygon). -/
def strictlyInside (p : Pt) (r : Rect) : Prop :=
  r.x1 < p.1 ∧ p.1 < r.x2 ∧ r.y1 < p.2 ∧ p.2 < r.y2

instance (p : Pt) (r : Rect) : Decidable (strictlyInside p r) := by
  unfold strictlyInside; infer_instance

/-- Squared distance from a point to a closed rectangle: this is shapely's
`polygon.distance(point)` squared — `0` when the point lies in the closed
polygon, otherwise the squared distance to the boundary. -/
def sqDistPtRect (p : Pt) (r : Rect) : ℤ :=
  sqr (gapI r.x1 r.x2 p.1) + sqr (gapI r.y1 r.y2 p.2)

/-- Squared distance between two closed rectangles (infimum of pointwise
distances, squared). -/
def sqDistRects (a b : Rect) : ℤ :=
  sqr (gapII a.x1 a.x2 b.x1 b.x2) + sqr (gapII a.y1 a.y2 b.y1 b.y2)

/-- Embedding of `wetland.buffer(d).intersects(parcel)` (line 95 of app.py):
the closed buffer of radius `d` around a closed geometry meets another closed
geometry exactly when their distance is at most `d`. -/
def bufferedIntersects (d : ℤ) (w parcel : Rect) : Bool :=
  decide (sqDistRects w parcel ≤ d * d)

/-- The buffer region of a geometry: all points within distance `d` of it
(stated with squared distances; `d ≥ 0` in every use). -/
def bufferRegion (g : Rect) (d : ℤ) : Set Pt :=
  {q | ∃ p, inRect p g ∧ sqDistPts q p ≤ d * d}

/-- The union of the buffered wetland geometries. -/
def bufferUnionRegion (ws : List Rect) (d : ℤ) : Set Pt :=
  {q | ∃ g ∈ ws, q ∈ bufferRegion g d}

/-- A geometry intersects a region when some point of the geometry lies in
the region. -/
def intersectsRegion (r : Rect) (S : Set Pt) : Prop :=
  ∃ q, inRect q r ∧ q ∈ S

/-- Attribute values stored in a GeoDataFrame column. -/
inductive Val where
  | b (bv : Bool)
  | i (iv : Int)
  | s (sv : String)
  | q (qv : ℚ)
deriving DecidableEq

/-- One row of a GeoDataFrame: a geometry plus named attribute columns. -/
structure Feature where
  geom : Rect
  attrs : List (String × Val)
deriving DecidableEq

/-- Coordinate reference system tag carried by a GeoDataFrame.  GeoJSON data
loaded by `gpd.read_file` is tagged EPSG:4326, i.e. geographic. -/
inductive CRS where
  | geographic
  | projected
deriving DecidableEq

/-- A GeoDataFrame: an ordered list of features sharing one CRS. -/
structure GeoFrame where
  crs : CRS
  rows : List Feature
deriving DecidableEq

/-- Reading a column value of a row (first matching column name). -/
def getCol : List (String × Val) → String → Option Val
  | [], _ => none
  | (k, v) :: rest, key => if k = key then some v else getCol rest key

/-- Pandas column assignment `df[key] = v` on one row: overwrites the column
in place when present (position kept), otherwise appends it at the end. -/
def setCol : List (String × Val) → String → Val → List (String × Val)
  | [], key, v => [(key, v)]
  | (k, w) :: rest, key, v =>
      if k = key then (key, v) :: rest else (k, w) :: setCol rest key v

/-- Pandas `df.drop(columns=[key], errors='ignore')` on one row: remove the
named column, keep everything else in order. -/
def dropCol (key : String) : List (String × Val) → List (String × Val)
  | [] => []
  | kv :: rest =>
      if kv.1 = key then dropCol key rest else kv :: dropCol key rest

/-- Dropping the `index_right` column of one row (line 97 of app.py). -/
def dropIdxRight (f : Feature) : Feature :=
  { geom := f.geom, attrs := dropCol "index_right" f.attrs }

/-- Python exceptions that the modelled fragments can raise. -/
inductive PyErr where
  | keyError
  | indexError
  | valueError
  | geosError
deriving DecidableEq

/-- The buffered wetland series of line 94, `_wetlands.geometry.buffer(100)`:
each geometry paired with its buffer radius, in the series' CRS.  Buffering
never changes the CRS tag — no reprojection happens anywhere in app.py. -/
structure BufferedSeries where
  crs : CRS
  geoms : List (Rect × ℤ)
deriving DecidableEq

/-- Line 94 of app.py: buffer every wetland geometry by the literal `100` in
the wetlands frame's own CRS. -/
def wetlands_buffer (w : GeoFrame) : BufferedSeries :=
  { crs := w.crs, geoms := w.rows.map (fun f => (f.geom, 100)) }

/-- Line 95, `wetlands_buffer.intersects(x).any()`: does any buffered
wetland geometry intersect the geometry `g`. -/
def seriesIntersectsAny (bs : BufferedSeries) (g : Rect) : Bool :=
  bs.geoms.any (fun wd => bufferedIntersects wd.2 wd.1 g)

/-- Lines 95–96 of app.py applied to one parcel row: set
`wetland_adjacent` to whether any buffered wetland intersects the parcel,
then set `total_score` to that boolean cast to int. -/
def annotateRow (bs : BufferedSeries) (f : Feature) : Feature :=
  let adj := seriesIntersectsAny bs f.geom
  { geom := f.geom
    attrs := setCol (setCol f.attrs "wetland_adjacent" (Val.b adj))
      "total_score" (Val.i (if adj then 1 else 0)) }

/-- The happy path of `preprocess_data` (lines 94–97), with the in-place
mutation of the `_parcels` argument made explicit: the first component is
the returned frame (a new object produced by `drop`, without `index_right`),
the second is the state of the caller's parcels object after the call —
column assignment mutates it, so it has gained `wetland_adjacent` and
`total_score` but still carries `index_right`. -/
def preprocess_data_mut (parcels wetlands : GeoFrame) : GeoFrame × GeoFrame :=
  let buffered := wetlands_buffer wetlands
  let mutated : GeoFrame :=
    { crs := parcels.crs, rows := parcels.rows.map (annotateRow buffered) }
  ({ crs := mutated.crs, rows := mutated.rows.map dropIdxRight }, mutated)

/-- Lines 92–100 of app.py.  `err` injects whether the geometry library
raises inside the `try` body (at the buffer step, before any mutation): the
bare `except` handler logs and returns the input `_parcels` unchanged. -/
def preprocess_data (err : Option PyErr) (parcels wetlands : GeoFrame) :
    GeoFrame :=
  match err with
  | some _ => parcels
  | none => (preprocess_data_mut parcels wetlands).1

/-- Lines 61–62 of app.py: after loading, raise `ValueError` when any of the
three datasets is empty (`st.stop()` then aborts the script). -/
def validate_loaded (parcels wetlands roads : GeoFrame) : Except PyErr Unit :=
  if parcels.rows.isEmpty || wetlands.rows.isEmpty || roads.rows.isEmpty then
    Except.error PyErr.valueError
  else
    Except.ok ()

/-- A geocoder hit, as returned by Nominatim. -/
structure Location where
  lon : ℤ
  lat : ℤ
deriving DecidableEq

/-- Lines 78–85 of app.py, `Geocoder.geocode`: the argument is the outcome of
the underlying `geolocator.geocode` call (a hit, no hit, or a raised
exception).  A hit becomes `Point(lon, lat)`; no hit falls through to
`return None`; an exception is caught, logged, and also reaches
`return None`. -/
def geocode (result : Except PyErr (Option Location)) : Option Pt :=
  match result with
  | Except.ok (some loc) => some (loc.lon, loc.lat)
  | Except.ok none => none
  | Except.error _ => none

/-- One concrete executable instance of the head of `Series.argsort()`
(index and value of a minimal element).  Pandas `argsort` defaults to
numpy quicksort, which is documented as NOT stable: on a tie of minimal
values the real code may place any minimal index first, and which one is
not determined by the source.  This instance resolves ties at the earliest
index purely to stay executable; no theorem below relies on that choice —
every tie-sensitive statement is made against `isArgminIdx`, the set of
indices an arbitrary argsort may yield. -/
def minIdxVal : List ℤ → Option (ℕ × ℤ)
  | [] => none
  | x :: xs =>
      match minIdxVal xs with
      | none => some (0, x)
      | some (j, v) => if x ≤ v then some (0, x) else some (j + 1, v)

/-- The indices that `argsort()[0]` may yield on the list `l`: the only
guarantee the unstable quicksort gives is that the first position of the
sorted order holds a minimal element, so any index attaining the minimum is
a possible outcome. -/
def isArgminIdx (l : List ℤ) (j : ℕ) : Prop :=
  ∃ v, l.get? j = some v ∧ ∀ k w, l.get? k = some w → v ≤ w

/-- Line 161 of app.py,
`parcels.iloc[parcels.distance(point).argsort()[0]]`: elementwise distance
from each parcel geometry to the point, then the row at the argsort's first
position.  On an empty frame the `[0]` lookup raises (KeyError); `iloc` out
of range would raise IndexError.  This is the executable instance built on
`minIdxVal`; its tie-break is one possible outcome of the unstable sort
(see `isArgminIdx`), and statements about tie behaviour are made against
`isArgminIdx`, not against this instance's choice. -/
def nearestFeature (pt : Pt) (ps : List Feature) : Except PyErr Feature :=
  match minIdxVal (ps.map (fun f => sqDistPtRect pt f.geom)) with
  | none => Except.error PyErr.keyError
  | some (j, _) =>
      match ps.get? j with
      | none => Except.error PyErr.indexError
      | some f => Except.ok f


deriving instance DecidableEq for Except

/-! ### Association-list (column) lemmas -/

theorem getCol_setCol_self (l : List (String × Val)) (k : String) (v : Val) :
    getCol (setCol l k v) k = some v := by
  induction l with
  | nil => simp [setCol, getCol]
  | cons kv rest ih =>
      by_cases h : kv.1 = k
      · simp [setCol, getCol, h]
      · simp [setCol, getCol, h, ih]

theorem getCol_setCol_ne (l : List (String × Val)) (k k' : String) (v : Val)
    (h : k' ≠ k) : getCol (setCol l k v) k' = getCol l k' := by
  induction l with
  | nil => simp [setCol, getCol, Ne.symm h]
  | cons kv rest ih =>
      by_cases hk : kv.1 = k
      · simp [setCol, getCol, hk, Ne.symm h]
      · by_cases hk' : kv.1 = k'
        · simp [setCol, getCol, hk, hk', h, Ne.symm h]
        · simp [setCol, getCol, hk, hk', ih]

theorem getCol_dropCol_ne (l : List (String × Val)) (k k' : String)
    (h : k' ≠ k) : getCol (dropCol k l) k' = getCol l k' := by
  induction l with
  | nil => simp [dropCol]
  | cons kv rest ih =>
      by_cases hk : kv.1 = k
      · simp [dropCol, getCol, hk, Ne.symm h, ih]
      · by_cases hk' : kv.1 = k'
        · simp [dropCol, getCol, hk, hk', h]
        · simp [dropCol, getCol, hk, hk', ih]

theorem dropCol_setCol_ne (l : List (String × Val)) (k key : String) (v : Val)
    (h : k ≠ key) :
    dropCol key (setCol l k v) = setCol (dropCol key l) k v := by
  induction l with
  | nil => simp [setCol, dropCol, h]
  | cons kv rest ih =>
      by_cases hk : kv.1 = k
      · have hkey : ¬ kv.1 = key := by rw [hk]; exact h
        simp [setCol, dropCol, hk, h, hkey]
      · by_cases hkey : kv.1 = key
        · simp [setCol, dropCol, hk, hkey, h, Ne.symm h, ih]
        · simp [setCol, dropCol, hk, hkey, h, Ne.symm h, ih]

theorem dropCol_dropCol (l : List (String × Val)) (k : String) :
    dropCol k (dropCol k l) = dropCol k l := by
  induction l with
  | nil => simp [dropCol]
  | cons kv rest ih =>
      by_cases hk : kv.1 = k
      · simp [dropCol, hk, ih]
      · simp [dropCol, hk, ih]

theorem setCol_eq_of_getCol (l : List (String × Val)) (k : String) (v : Val)
    (h : getCol l k = some v) : setCol l k v = l := by
  induction l with
  | nil => simp [getCol] at h
  | cons kv rest ih =>
      obtain ⟨k1, v1⟩ := kv
      by_cases hk : k1 = k
      · simp only [getCol, if_pos hk, Option.some.injEq] at h
        simp [setCol, hk, h]
      · simp only [getCol, if_neg hk] at h
        simp [setCol, hk, ih h]

theorem dropCol_eq_of_getCol_none (l : List (String × Val)) (k : String)
    (h : getCol l k = none) : dropCol k l = l := by
  induction l with
  | nil => simp [dropCol]
  | cons kv rest ih =>
      by_cases hk : kv.1 = k
      · simp [getCol, hk] at h
      · simp only [getCol, if_neg hk] at h
        simp [dropCol, hk, ih h]

/-! ### Lemmas about `minIdxVal` (the head of `argsort`) -/

theorem minIdxVal_eq_none (l : List ℤ) : minIdxVal l = none ↔ l = [] := by
  cases l with
  | nil => simp [minIdxVal]
  | cons x xs =>
      simp only [minIdxVal]
      cases minIdxVal xs with
      | none => simp
      | some jv =>
          obtain ⟨j, v⟩ := jv
          by_cases h : x ≤ v <;> simp [h]

theorem minIdxVal_spec :
    ∀ (l : List ℤ) (j : ℕ) (v : ℤ), minIdxVal l = some (j, v) →
      l.get? j = some v ∧ (∀ k w, l.get? k = some w → v ≤ w) ∧
        (∀ k, k < j → ∀ w, l.get? k = some w → v < w)
  | [], j, v, h => by simp [minIdxVal] at h
  | x :: xs, j, v, h => by
      rcases hxs : minIdxVal xs with _ | ⟨j', v'⟩
      · have hnil : xs = [] := (minIdxVal_eq_none xs).mp hxs
        subst hnil
        simp only [minIdxVal, Option.some.injEq, Prod.mk.injEq] at h
        obtain ⟨rfl, rfl⟩ := h
        refine ⟨rfl, ?_, ?_⟩
        · intro k w hw
          cases k with
          | zero =>
              simp only [List.get?_cons_zero, Option.some.injEq] at hw
              exact le_of_eq hw
          | succ k => simp at hw
        · intro k hk w hw
          exact absurd hk (Nat.not_lt_zero k)
      · obtain ⟨h1, h2, h3⟩ := minIdxVal_spec xs j' v' hxs
        simp only [minIdxVal, hxs] at h
        by_cases hle : x ≤ v'
        · rw [if_pos hle] at h
          simp only [Option.some.injEq, Prod.mk.injEq] at h
          obtain ⟨rfl, rfl⟩ := h
          refine ⟨rfl, ?_, ?_⟩
          · intro k w hw
            cases k with
            | zero =>
                simp only [List.get?_cons_zero, Option.some.injEq] at hw
                exact le_of_eq hw
            | succ k =>
                simp only [List.get?_cons_succ] at hw
                exact le_trans hle (h2 k w hw)
          · intro k hk w hw
            exact absurd hk (Nat.not_lt_zero k)
        · rw [if_neg hle] at h
          simp only [Option.some.injEq, Prod.mk.injEq] at h
          obtain ⟨hj, rfl⟩ := h
          subst hj
          push_neg at hle
          refine ⟨by simpa using h1, ?_, ?_⟩
          · intro k w hw
            cases k with
            | zero =>
                simp only [List.get?_cons_zero, Option.some.injEq] at hw
                subst hw
                exact le_of_lt hle
            | succ k =>
                simp only [List.get?_cons_succ] at hw
                exact h2 k w hw
          · intro k hk w hw
            cases k with
            | zero =>
                simp only [List.get?_cons_zero, Option.some.injEq] at hw
                subst hw
                exact hle
            | succ k =>
                simp only [List.get?_cons_succ] at hw
                exact h3 k (Nat.lt_of_succ_lt_succ hk) w hw

/-! ### Geometry lemmas -/

theorem sqr_nonneg (a : ℤ) : 0 ≤ sqr a := mul_self_nonneg a

theorem gapI_nonneg (l u x : ℤ) : 0 ≤ gapI l u x := le_max_left 0 _

theorem gapII_nonneg (l1 u1 l2 u2 : ℤ) : 0 ≤ gapII l1 u1 l2 u2 := le_max_left 0 _

theorem sqDistPtRect_nonneg (p : Pt) (r : Rect) : 0 ≤ sqDistPtRect p r :=
  add_nonneg (sqr_nonneg _) (sqr_nonneg _)

theorem gapI_eq_zero (l u x : ℤ) (h1 : l ≤ x) (h2 : x ≤ u) : gapI l u x = 0 := by
  unfold gapI
  rw [max_eq_left]
  exact max_le (by linarith) (by linarith)

theorem inRect_of_strictlyInside (p : Pt) (r : Rect) (h : strictlyInside p r) :
    inRect p r :=
  ⟨le_of_lt h.1, le_of_lt h.2.1, le_of_lt h.2.2.1, le_of_lt h.2.2.2⟩

theorem sqDistPtRect_eq_zero_of_inRect (p : Pt) (r : Rect) (h : inRect p r) :
    sqDistPtRect p r = 0 := by
  unfold sqDistPtRect
  rw [gapI_eq_zero r.x1 r.x2 p.1 h.1 h.2.1,
    gapI_eq_zero r.y1 r.y2 p.2 h.2.2.1 h.2.2.2]
  simp [sqr]

theorem sqDistPts_comm (p q : Pt) : sqDistPts p q = sqDistPts q p := by
  unfold sqDistPts sqr
  ring

theorem sqr_le_sqr_of_nonneg_le_abs (a b : ℤ) (h0 : 0 ≤ a) (h : a ≤ |b|) :
    sqr a ≤ sqr b := by
  have hb : sqr b = |b| * |b| := (abs_mul_abs_self b).symm
  rw [hb]
  exact mul_self_le_mul_self h0 h

theorem gapII_le_abs (l1 u1 l2 u2 x y : ℤ) (h1 : l1 ≤ x) (h2 : x ≤ u1)
    (h3 : l2 ≤ y) (h4 : y ≤ u2) : gapII l1 u1 l2 u2 ≤ |x - y| := by
  unfold gapII
  refine max_le (abs_nonneg _) (max_le ?_ ?_)
  · calc l1 - u2 ≤ x - y := by linarith
      _ ≤ |x - y| := le_abs_self _
  · calc l2 - u1 ≤ y - x := by linarith
      _ ≤ |x - y| := by rw [abs_sub_comm]; exact le_abs_self _

theorem gapII_exists (l1 u1 l2 u2 : ℤ) (h1 : l1 ≤ u1) (h2 : l2 ≤ u2) :
    ∃ x y, l1 ≤ x ∧ x ≤ u1 ∧ l2 ≤ y ∧ y ≤ u2 ∧
      sqr (x - y) = sqr (gapII l1 u1 l2 u2) := by
  rcases lt_or_le u1 l2 with hA | hAle
  · have hg : gapII l1 u1 l2 u2 = l2 - u1 := by
      unfold gapII
      rw [max_eq_right (by linarith : l1 - u2 ≤ l2 - u1),
        max_eq_right (by linarith : (0:ℤ) ≤ l2 - u1)]
    refine ⟨u1, l2, h1, le_refl u1, le_refl l2, h2, ?_⟩
    rw [hg]
    unfold sqr
    ring
  · rcases lt_or_le u2 l1 with hB | hBle
    · have hg : gapII l1 u1 l2 u2 = l1 - u2 := by
        unfold gapII
        rw [max_eq_left (by linarith : l2 - u1 ≤ l1 - u2),
          max_eq_right (by linarith : (0:ℤ) ≤ l1 - u2)]
      exact ⟨l1, u2, le_refl l1, h1, h2, le_refl u2, by rw [hg]⟩
    · have hg : gapII l1 u1 l2 u2 = 0 := by
        unfold gapII
        rw [max_eq_left]
        exact max_le (by linarith) (by linarith)
      rcases le_total l2 l1 with hc | hc
      · exact ⟨l1, l1, le_refl l1, h1, hc, hBle, by rw [hg]; simp [sqr]⟩
      · exact ⟨l2, l2, hc, hAle, le_refl l2, h2, by rw [hg]; simp [sqr]⟩

theorem sqDistRects_le_iff (a b : Rect) (ha : a.valid) (hb : b.valid) (e : ℤ) :
    sqDistRects a b ≤ e ↔
      ∃ p q, inRect p a ∧ inRect q b ∧ sqDistPts p q ≤ e := by
  constructor
  · intro h
    obtain ⟨x, x', hx1, hx2, hx3, hx4, hxe⟩ :=
      gapII_exists a.x1 a.x2 b.x1 b.x2 ha.1 hb.1
    obtain ⟨y, y', hy1, hy2, hy3, hy4, hye⟩ :=
      gapII_exists a.y1 a.y2 b.y1 b.y2 ha.2 hb.2
    refine ⟨(x, y), (x', y'), ⟨hx1, hx2, hy1, hy2⟩, ⟨hx3, hx4, hy3, hy4⟩, ?_⟩
    show sqr (x - x') + sqr (y - y') ≤ e
    rw [hxe, hye]
    exact h
  · rintro ⟨p, q, hp, hq, hpq⟩
    have e1 : sqr (gapII a.x1 a.x2 b.x1 b.x2) ≤ sqr (p.1 - q.1) :=
      sqr_le_sqr_of_nonneg_le_abs _ _ (gapII_nonneg _ _ _ _)
        (gapII_le_abs _ _ _ _ _ _ hp.1 hp.2.1 hq.1 hq.2.1)
    have e2 : sqr (gapII a.y1 a.y2 b.y1 b.y2) ≤ sqr (p.2 - q.2) :=
      sqr_le_sqr_of_nonneg_le_abs _ _ (gapII_nonneg _ _ _ _)
        (gapII_le_abs _ _ _ _ _ _ hp.2.2.1 hp.2.2.2 hq.2.2.1 hq.2.2.2)
    unfold sqDistRects
    unfold sqDistPts at hpq
    linarith

theorem seriesIntersectsAny_iff (w : GeoFrame) (g : Rect) (hg : g.valid)
    (hw : ∀ f ∈ w.rows, f.geom.valid) :
    seriesIntersectsAny (wetlands_buffer w) g = true ↔
      intersectsRegion g
        (bufferUnionRegion (w.rows.map (fun f => f.geom)) 100) := by
  unfold seriesIntersectsAny wetlands_buffer
  rw [List.any_eq_true]
  constructor
  · rintro ⟨wd, hwd, hbuf⟩
    simp only [List.mem_map] at hwd
    obtain ⟨f, hf, rfl⟩ := hwd
    have hle : sqDistRects f.geom g ≤ 100 * 100 := by
      simpa [bufferedIntersects] using hbuf
    obtain ⟨p, q, hp, hq, hpq⟩ :=
      (sqDistRects_le_iff f.geom g (hw f hf) hg (100 * 100)).mp hle
    exact ⟨q, hq, f.geom, List.mem_map_of_mem _ hf, p, hp,
      by rwa [sqDistPts_comm]⟩
  · rintro ⟨qpt, hq, grect, hgr, ppt, hp, hpq⟩
    simp only [List.mem_map] at hgr
    obtain ⟨f, hf, rfl⟩ := hgr
    refine ⟨(f.geom, 100), List.mem_map_of_mem _ hf, ?_⟩
    simp only [bufferedIntersects, decide_eq_true_eq]
    exact (sqDistRects_le_iff f.geom g (hw f hf) hg (100 * 100)).mpr
      ⟨ppt, qpt, hp, hq, by rwa [sqDistPts_comm]⟩

/-! ### Pipeline helper lemmas -/

theorem annotateRow_geom (bs : BufferedSeries) (f : Feature) :
    (annotateRow bs f).geom = f.geom := rfl

theorem dropIdxRight_geom (f : Feature) : (dropIdxRight f).geom = f.geom := rfl

theorem annotateRow_attrs (bs : BufferedSeries) (f : Feature) :
    (annotateRow bs f).attrs =
      setCol (setCol f.attrs "wetland_adjacent"
          (Val.b (seriesIntersectsAny bs f.geom)))
        "total_score"
        (Val.i (if seriesIntersectsAny bs f.geom then 1 else 0)) := rfl

theorem getCol_annotated_adjacent (bs : BufferedSeries) (f : Feature) :
    getCol (dropIdxRight (annotateRow bs f)).attrs "wetland_adjacent" =
      some (Val.b (seriesIntersectsAny bs f.geom)) := by
  show getCol (dropCol "index_right" (annotateRow bs f).attrs)
      "wetland_adjacent" = _
  rw [annotateRow_attrs, getCol_dropCol_ne _ _ _ (by decide),
    getCol_setCol_ne _ _ _ _ (by decide), getCol_setCol_self]

theorem getCol_annotated_score (bs : BufferedSeries) (f : Feature) :
    getCol (dropIdxRight (annotateRow bs f)).attrs "total_score" =
      some (Val.i (if seriesIntersectsAny bs f.geom then 1 else 0)) := by
  show getCol (dropCol "index_right" (annotateRow bs f).attrs)
      "total_score" = _
  rw [annotateRow_attrs, getCol_dropCol_ne _ _ _ (by decide),
    getCol_setCol_self]

theorem annotate_drop_idem (bs : BufferedSeries) (f : Feature) :
    dropIdxRight (annotateRow bs (dropIdxRight (annotateRow bs f))) =
      dropIdxRight (annotateRow bs f) := by
  have hadj : seriesIntersectsAny bs (dropIdxRight (annotateRow bs f)).geom =
      seriesIntersectsAny bs f.geom := rfl
  have h1 : getCol (dropIdxRight (annotateRow bs f)).attrs "wetland_adjacent" =
      some (Val.b (seriesIntersectsAny bs f.geom)) :=
    getCol_annotated_adjacent bs f
  have h2 : getCol (dropIdxRight (annotateRow bs f)).attrs "total_score" =
      some (Val.i (if seriesIntersectsAny bs f.geom then 1 else 0)) :=
    getCol_annotated_score bs f
  show Feature.mk _ (dropCol "index_right"
      (annotateRow bs (dropIdxRight (annotateRow bs f))).attrs) = _
  rw [annotateRow_attrs, hadj]
  rw [setCol_eq_of_getCol _ _ _ h1, setCol_eq_of_getCol _ _ _ h2]
  show Feature.mk f.geom
      (dropCol "index_right" (dropIdxRight (annotateRow bs f)).attrs) = _
  rw [show (dropIdxRight (annotateRow bs f)).attrs =
      dropCol "index_right" (annotateRow bs f).attrs from rfl]
  rw [dropCol_dropCol]
  rfl

theorem distEntry_get (pt : Pt) (ps : List Feature) (k : ℕ)
    (hk : k < ps.length) :
    (ps.map (fun f => sqDistPtRect pt f.geom)).get? k =
      some (sqDistPtRect pt (ps.get ⟨k, hk⟩).geom) := by
  rw [List.get?_map, List.get?_eq_get hk]
  rfl

theorem nearestFeature_isArgmin (pt : Pt) (ps : List Feature) (h : ps ≠ []) :
    ∃ j, ∃ hj : j < ps.length,
      isArgminIdx (ps.map (fun f => sqDistPtRect pt f.geom)) j ∧
      nearestFeature pt ps = Except.ok (ps.get ⟨j, hj⟩) := by
  rcases hmin : minIdxVal (ps.map (fun f => sqDistPtRect pt f.geom))
    with _ | ⟨j, v⟩
  · rw [minIdxVal_eq_none, List.map_eq_nil] at hmin
    exact absurd hmin h
  · obtain ⟨h1, h2, h3⟩ := minIdxVal_spec _ j v hmin
    have hjl : j < ps.length := by
      have hlt := (List.get?_eq_some.mp h1).1
      simpa using hlt
    have hget : ps.get? j = some (ps.get ⟨j, hjl⟩) := List.get?_eq_get hjl
    refine ⟨j, hjl, ⟨v, h1, h2⟩, ?_⟩
    unfold nearestFeature
    rw [hmin]
    show (match ps.get? j with
      | none => Except.error PyErr.indexError
      | some f => Except.ok f) = _
    rw [hget]

/-! ### Claim theorems -/

/-- Claim C10: `Geocoder.geocode` returns None both when the geocoding
service finds no match and when the underlying service call raises an
exception — the handler catches and logs, then control falls through to
`return None` — so at the public interface a service failure and a
legitimate not-found are the same value and cannot be distinguished. -/
theorem C10_geocode_conflates (e : PyErr) :
    geocode (Except.error e) = none ∧ geocode (Except.ok none) = none ∧
      geocode (Except.error e) = geocode (Except.ok none) :=
  ⟨rfl, rfl, rfl⟩

/-- Claim C4 counterexample: the nearest-parcel lookup of line 161 applied
to an empty collection raises a lookup error (`argsort()[0]` on an empty
series), modelled as `Except.error` — it does not produce a NotFound
value. -/
theorem C4_counterexample :
    nearestFeature (0, 0) [] = Except.error PyErr.keyError := rfl

/-- Claim C4 amended: on an empty collection the nearest lookup raises a
lookup error rather than returning a NotFound value; the app instead guards
at load time — lines 61-62 raise ValueError (and `st.stop()` aborts)
whenever any loaded dataset is empty — so the empty case is an abort, not a
reportable value. -/
theorem C4_amended (pt : Pt) (w r : GeoFrame) :
    nearestFeature pt [] = Except.error PyErr.keyError ∧
      validate_loaded (GeoFrame.mk CRS.geographic []) w r =
        Except.error PyErr.valueError :=
  ⟨rfl, rfl⟩

/-- Claim C2 (code bug): app.py contains no reprojection at all — the
buffered series of line 94 always keeps the CRS of the wetlands frame it
was computed from, and a frame loaded from GeoJSON is geographic
(EPSG:4326), so `buffer(100)` is computed in geographic degrees. -/
theorem C2_buffer_in_native_crs :
    (∀ w : GeoFrame, (wetlands_buffer w).crs = w.crs) ∧
      (wetlands_buffer (GeoFrame.mk CRS.geographic
          [Feature.mk (Rect.mk 0 1 0 1) []])).crs = CRS.geographic ∧
      (wetlands_buffer (GeoFrame.mk CRS.geographic
          [Feature.mk (Rect.mk 0 1 0 1) []])).geoms =
        [(Rect.mk 0 1 0 1, 100)] :=
  ⟨fun _ => rfl, rfl, rfl⟩

/-- Claim C6 (code bug): the bare `except` of `preprocess_data` (lines
98-100) swallows any error raised inside the body and returns the input
collection unchanged — unannotated, with no error surfaced to the caller;
concretely the returned collection still has no `total_score` column, which
the UI later reads unconditionally. -/
theorem C6_error_swallowed :
    (∀ (e : PyErr) (parcels wetlands : GeoFrame),
        preprocess_data (some e) parcels wetlands = parcels) ∧
      ((preprocess_data (some PyErr.geosError)
            (GeoFrame.mk CRS.geographic [Feature.mk (Rect.mk 0 1 0 1) []])
            (GeoFrame.mk CRS.geographic
              [Feature.mk (Rect.mk 2 3 0 1) []])).rows.map
          (fun f => getCol f.attrs "total_score")) = [none] :=
  ⟨fun _ _ _ => rfl, rfl⟩

/-- Claim C1 counterexample: the query point (2, 2) lies strictly inside
parcel X = [1,3]x[1,3] at index 1, but it also lies on the boundary of the
lower-indexed parcel Y = [0,2]x[0,2]; both parcels are then at distance 0
and the argsort-based lookup of line 161 returns Y, not X.  The code has no
containment-priority step, so containment does not take priority over the
index order among zero-distance parcels. -/
theorem C1_counterexample :
    strictlyInside (2, 2) (Rect.mk 1 3 1 3) ∧
      nearestFeature (2, 2)
          [Feature.mk (Rect.mk 0 2 0 2) [], Feature.mk (Rect.mk 1 3 1 3) []] =
        Except.ok (Feature.mk (Rect.mk 0 2 0 2) []) ∧
      nearestFeature (2, 2)
          [Feature.mk (Rect.mk 0 2 0 2) [], Feature.mk (Rect.mk 1 3 1 3) []] ≠
        Except.ok (Feature.mk (Rect.mk 1 3 1 3) []) := by
  refine ⟨by decide, by decide, by decide⟩

/-- Claim C1 amended: if the query point lies strictly inside the parcel at
index i and every other parcel is at positive distance from the point, the
lookup returns that parcel: the minimum of the distance series is then
uniquely attained at i, so every index that `argsort()[0]` can yield — the
unstable default quicksort may place any minimal-distance index first — is
i itself, and the executable embedding agrees.  Containment priority holds
only through the zero distance of a containing polygon; when another
parcel's closed geometry also touches the point (a tie at distance 0), the
winner is an unspecified equidistant parcel, not necessarily the containing
one. -/
theorem C1_amended (pt : Pt) (ps : List Feature) (i : ℕ) (hi : i < ps.length)
    (hin : strictlyInside pt (ps.get ⟨i, hi⟩).geom)
    (hothers : ∀ j (hj : j < ps.length), j ≠ i →
      0 < sqDistPtRect pt (ps.get ⟨j, hj⟩).geom) :
    (∀ j (hj : j < ps.length),
        isArgminIdx (ps.map (fun f => sqDistPtRect pt f.geom)) j →
        ps.get ⟨j, hj⟩ = ps.get ⟨i, hi⟩) ∧
      nearestFeature pt ps = Except.ok (ps.get ⟨i, hi⟩) := by
  have hne : ps ≠ [] := by
    intro hnil
    rw [hnil] at hi
    exact absurd hi (by simp)
  have hdi : sqDistPtRect pt (ps.get ⟨i, hi⟩).geom = 0 :=
    sqDistPtRect_eq_zero_of_inRect _ _ (inRect_of_strictlyInside _ _ hin)
  have hidx : ∀ j (hj : j < ps.length),
      isArgminIdx (ps.map (fun f => sqDistPtRect pt f.geom)) j → j = i := by
    intro j hj hmin
    obtain ⟨v, hv, hle⟩ := hmin
    have hvj : v = sqDistPtRect pt (ps.get ⟨j, hj⟩).geom := by
      have hv2 := hv
      rw [distEntry_get pt ps j hj] at hv2
      exact (Option.some.inj hv2).symm
    have hv0 : v ≤ 0 := by
      have := hle i _ (distEntry_get pt ps i hi)
      rwa [hdi] at this
    have hdj0 : sqDistPtRect pt (ps.get ⟨j, hj⟩).geom = 0 :=
      le_antisymm (hvj ▸ hv0) (sqDistPtRect_nonneg _ _)
    by_contra hji
    exact absurd hdj0 (ne_of_gt (hothers j hj hji))
  constructor
  · intro j hj hmin
    have hj_eq := hidx j hj hmin
    subst hj_eq
    rfl
  · obtain ⟨j, hj, hargmin, hres⟩ := nearestFeature_isArgmin pt ps hne
    have hj_eq := hidx j hj hargmin
    subst hj_eq
    exact hres

/-- Claim C1 amended witness: a single parcel strictly containing the query
point: every possible argmin index is 0 and the lookup returns the
parcel. -/
theorem C1_amended_witness :
    (0 < ([Feature.mk (Rect.mk 0 2 0 2) []] : List Feature).length) ∧
      strictlyInside (1, 1) (Rect.mk 0 2 0 2) ∧
      ((∀ j (hj : j < ([Feature.mk (Rect.mk 0 2 0 2) []] :
            List Feature).length),
          isArgminIdx (([Feature.mk (Rect.mk 0 2 0 2) []] :
              List Feature).map (fun f => sqDistPtRect (1, 1) f.geom)) j →
          ([Feature.mk (Rect.mk 0 2 0 2) []] : List Feature).get ⟨j, hj⟩ =
            ([Feature.mk (Rect.mk 0 2 0 2) []] :
              List Feature).get ⟨0, by decide⟩) ∧
        nearestFeature (1, 1) [Feature.mk (Rect.mk 0 2 0 2) []] =
          Except.ok (([Feature.mk (Rect.mk 0 2 0 2) []] :
            List Feature).get ⟨0, by decide⟩)) :=
  ⟨by decide, by decide,
    C1_amended (1, 1) [Feature.mk (Rect.mk 0 2 0 2) []] 0 (by decide)
      (by decide) (fun j hj hj0 => absurd (Nat.lt_one_iff.mp hj) hj0)⟩

/-- Claim C7 counterexample: a pre-existing `index_right` attribute is not
passed through — line 97 of app.py drops that column from the returned
collection. -/
theorem C7_counterexample :
    getCol [("index_right", Val.i 5)] "index_right" = some (Val.i 5) ∧
      ((preprocess_data none
          (GeoFrame.mk CRS.geographic
            [Feature.mk (Rect.mk 0 1 0 1) [("index_right", Val.i 5)]])
          (GeoFrame.mk CRS.geographic [])).rows.map
        (fun f => getCol f.attrs "index_right")) = [none] := by
  refine ⟨by decide, by decide⟩

/-- Claim C7 amended: annotation keeps the feature count, the feature
order, and each feature's geometry, and passes through every pre-existing
attribute except `index_right`, which is dropped; only `wetland_adjacent`,
`total_score` and `index_right` columns can differ from the input. -/
theorem C7_amended (parcels wetlands : GeoFrame) (i : ℕ) (k : String)
    (hi : i < parcels.rows.length)
    (h1 : k ≠ "wetland_adjacent") (h2 : k ≠ "total_score")
    (h3 : k ≠ "index_right") :
    (preprocess_data none parcels wetlands).rows.length =
        parcels.rows.length ∧
      ∃ hi' : i < (preprocess_data none parcels wetlands).rows.length,
        ((preprocess_data none parcels wetlands).rows.get ⟨i, hi'⟩).geom =
            (parcels.rows.get ⟨i, hi⟩).geom ∧
          getCol ((preprocess_data none parcels wetlands).rows.get
              ⟨i, hi'⟩).attrs k =
            getCol (parcels.rows.get ⟨i, hi⟩).attrs k := by
  have hlen : (preprocess_data none parcels wetlands).rows.length =
      parcels.rows.length := by
    show (((parcels.rows.map (annotateRow (wetlands_buffer wetlands))).map
      dropIdxRight)).length = parcels.rows.length
    simp
  have hi' : i < (preprocess_data none parcels wetlands).rows.length := by
    rwa [hlen]
  have hrow : (preprocess_data none parcels wetlands).rows.get ⟨i, hi'⟩ =
      dropIdxRight (annotateRow (wetlands_buffer wetlands)
        (parcels.rows.get ⟨i, hi⟩)) := by
    show (((parcels.rows.map (annotateRow (wetlands_buffer wetlands))).map
      dropIdxRight)).get ⟨i, hi'⟩ = _
    simp [List.get_map]
  refine ⟨hlen, hi', ?_, ?_⟩
  · rw [hrow]
    rfl
  · rw [hrow]
    show getCol (dropCol "index_right"
      (annotateRow (wetlands_buffer wetlands)
        (parcels.rows.get ⟨i, hi⟩)).attrs) k = _
    rw [getCol_dropCol_ne _ _ _ h3, annotateRow_attrs,
      getCol_setCol_ne _ _ _ _ h2, getCol_setCol_ne _ _ _ _ h1]

/-- Claim C7 amended witness: a one-row collection with an `owner`
attribute keeps it unchanged through annotation. -/
theorem C7_amended_witness :
    (0 < (GeoFrame.mk CRS.geographic
        [Feature.mk (Rect.mk 0 1 0 1)
          [("owner", Val.s "alice")]]).rows.length) ∧
      ("owner" : String) ≠ "wetland_adjacent" ∧
      ("owner" : String) ≠ "total_score" ∧
      ("owner" : String) ≠ "index_right" ∧
      ((preprocess_data none
          (GeoFrame.mk CRS.geographic
            [Feature.mk (Rect.mk 0 1 0 1) [("owner", Val.s "alice")]])
          (GeoFrame.mk CRS.geographic [])).rows.length =
          (GeoFrame.mk CRS.geographic
            [Feature.mk (Rect.mk 0 1 0 1)
              [("owner", Val.s "alice")]]).rows.length ∧
        ∃ hi' : 0 < (preprocess_data none
            (GeoFrame.mk CRS.geographic
              [Feature.mk (Rect.mk 0 1 0 1) [("owner", Val.s "alice")]])
            (GeoFrame.mk CRS.geographic [])).rows.length,
          ((preprocess_data none
              (GeoFrame.mk CRS.geographic
                [Feature.mk (Rect.mk 0 1 0 1) [("owner", Val.s "alice")]])
              (GeoFrame.mk CRS.geographic [])).rows.get ⟨0, hi'⟩).geom =
              ((GeoFrame.mk CRS.geographic
                [Feature.mk (Rect.mk 0 1 0 1)
                  [("owner", Val.s "alice")]]).rows.get
                ⟨0, by decide⟩).geom ∧
            getCol ((preprocess_data none
                (GeoFrame.mk CRS.geographic
                  [Feature.mk (Rect.mk 0 1 0 1) [("owner", Val.s "alice")]])
                (GeoFrame.mk CRS.geographic [])).rows.get
                ⟨0, hi'⟩).attrs "owner" =
              getCol ((GeoFrame.mk CRS.geographic
                [Feature.mk (Rect.mk 0 1 0 1)
                  [("owner", Val.s "alice")]]).rows.get
                ⟨0, by decide⟩).attrs "owner") :=
  ⟨by decide, by decide, by decide, by decide,
    C7_amended
      (GeoFrame.mk CRS.geographic
        [Feature.mk (Rect.mk 0 1 0 1) [("owner", Val.s "alice")]])
      (GeoFrame.mk CRS.geographic []) 0 "owner" (by decide) (by decide)
      (by decide) (by decide)⟩

/-- Claim C8 counterexample: after the annotation step runs, the caller's
original parcels object is changed — pandas column assignment inside
`preprocess_data` mutates the `_parcels` argument in place (lines 95-96),
so the post-call state of the input differs from the original input. -/
theorem C8_counterexample :
    (preprocess_data_mut
        (GeoFrame.mk CRS.geographic [Feature.mk (Rect.mk 0 1 0 1) []])
        (GeoFrame.mk CRS.geographic [])).2 ≠
      GeoFrame.mk CRS.geographic [Feature.mk (Rect.mk 0 1 0 1) []] := by
  decide

/-- Claim C8 amended: feature collections are not immutable values here —
annotation writes `wetland_adjacent` and `total_score` onto the caller's
parcels object, so whenever some input row does not already carry a
`wetland_adjacent` column, the caller's collection is mutated in place
(only the final `drop` step produces a fresh object). -/
theorem C8_amended (parcels wetlands : GeoFrame)
    (h : ∃ f ∈ parcels.rows, getCol f.attrs "wetland_adjacent" = none) :
    (preprocess_data_mut parcels wetlands).2 ≠ parcels := by
  obtain ⟨f, hf, hnone⟩ := h
  intro heq
  have hrows : parcels.rows.map (annotateRow (wetlands_buffer wetlands)) =
      parcels.rows := congrArg GeoFrame.rows heq
  have hall : ∀ g ∈ parcels.rows.map (annotateRow (wetlands_buffer wetlands)),
      getCol g.attrs "wetland_adjacent" ≠ none := by
    intro g hg
    rw [List.mem_map] at hg
    obtain ⟨f0, hf0, rfl⟩ := hg
    rw [annotateRow_attrs, getCol_setCol_ne _ _ _ _ (by decide),
      getCol_setCol_self]
    simp
  rw [hrows] at hall
  exact hall f hf hnone

/-- Claim C8 amended witness: a concrete one-row collection without a
`wetland_adjacent` column is mutated by annotation. -/
theorem C8_amended_witness :
    (∃ f ∈ (GeoFrame.mk CRS.geographic
        [Feature.mk (Rect.mk 0 1 0 1) [("id", Val.i 7)]]).rows,
      getCol f.attrs "wetland_adjacent" = none) ∧
      (preprocess_data_mut
          (GeoFrame.mk CRS.geographic
            [Feature.mk (Rect.mk 0 1 0 1) [("id", Val.i 7)]])
          (GeoFrame.mk CRS.geographic [Feature.mk (Rect.mk 5 6 0 1) []])).2 ≠
        GeoFrame.mk CRS.geographic
          [Feature.mk (Rect.mk 0 1 0 1) [("id", Val.i 7)]] :=
  ⟨by decide,
    C8_amended
      (GeoFrame.mk CRS.geographic
        [Feature.mk (Rect.mk 0 1 0 1) [("id", Val.i 7)]])
      (GeoFrame.mk CRS.geographic [Feature.mk (Rect.mk 5 6 0 1) []])
      (by decide)⟩

/-- Claim C9: `preprocess_data` is idempotent — applying it twice with the
same wetlands input (on either the happy path or the error path) returns
the same collection as applying it once: the recomputed `wetland_adjacent`
and `total_score` columns overwrite themselves with the same values and the
`index_right` drop is idempotent. -/
theorem C9_idempotent (err : Option PyErr) (parcels wetlands : GeoFrame) :
    preprocess_data err (preprocess_data err parcels wetlands) wetlands =
      preprocess_data err parcels wetlands := by
  cases err with
  | some e => rfl
  | none =>
      show GeoFrame.mk parcels.crs
          ((((parcels.rows.map (annotateRow (wetlands_buffer wetlands))).map
              dropIdxRight).map
            (annotateRow (wetlands_buffer wetlands))).map dropIdxRight) =
        GeoFrame.mk parcels.crs
          ((parcels.rows.map (annotateRow (wetlands_buffer wetlands))).map
            dropIdxRight)
      congr 1
      generalize parcels.rows = l
      induction l with
      | nil => rfl
      | cons f rest ih =>
          simp only [List.map_cons]
          rw [annotate_drop_idem (wetlands_buffer wetlands) f]
          exact congrArg _ ih

/-- Claim C3: for nonempty (valid) geometries, annotation marks each parcel
`wetland_adjacent = true` exactly when the parcel's geometry intersects the
union of the wetland geometries buffered outward by the code's buffer
distance (the hardcoded 100 of line 94), and sets `total_score` to 1 when
adjacent and to 0 otherwise. -/
theorem C3_annotate_scores (parcels wetlands : GeoFrame)
    (hp : ∀ f ∈ parcels.rows, f.geom.valid)
    (hw : ∀ f ∈ wetlands.rows, f.geom.valid)
    (i : ℕ) (hi : i < parcels.rows.length) :
    ∃ hi' : i < (preprocess_data none parcels wetlands).rows.length,
      (getCol ((preprocess_data none parcels wetlands).rows.get
            ⟨i, hi'⟩).attrs "wetland_adjacent" = some (Val.b true) ↔
        intersectsRegion (parcels.rows.get ⟨i, hi⟩).geom
          (bufferUnionRegion (wetlands.rows.map (fun f => f.geom)) 100)) ∧
      (intersectsRegion (parcels.rows.get ⟨i, hi⟩).geom
          (bufferUnionRegion (wetlands.rows.map (fun f => f.geom)) 100) →
        getCol ((preprocess_data none parcels wetlands).rows.get
            ⟨i, hi'⟩).attrs "total_score" = some (Val.i 1)) ∧
      (¬ intersectsRegion (parcels.rows.get ⟨i, hi⟩).geom
          (bufferUnionRegion (wetlands.rows.map (fun f => f.geom)) 100) →
        getCol ((preprocess_data none parcels wetlands).rows.get
            ⟨i, hi'⟩).attrs "total_score" = some (Val.i 0)) := by
  have hlen : (preprocess_data none parcels wetlands).rows.length =
      parcels.rows.length := by
    show (((parcels.rows.map (annotateRow (wetlands_buffer wetlands))).map
      dropIdxRight)).length = parcels.rows.length
    simp
  have hi' : i < (preprocess_data none parcels wetlands).rows.length := by
    rwa [hlen]
  have hrow : (preprocess_data none parcels wetlands).rows.get ⟨i, hi'⟩ =
      dropIdxRight (annotateRow (wetlands_buffer wetlands)
        (parcels.rows.get ⟨i, hi⟩)) := by
    show (((parcels.rows.map (annotateRow (wetlands_buffer wetlands))).map
      dropIdxRight)).get ⟨i, hi'⟩ = _
    simp [List.get_map]
  have hiff := seriesIntersectsAny_iff wetlands
    (parcels.rows.get ⟨i, hi⟩).geom (hp _ (List.get_mem _ _ _)) hw
  refine ⟨hi', ?_, ?_, ?_⟩
  · rw [hrow, getCol_annotated_adjacent]
    simp only [Option.some.injEq, Val.b.injEq]
    exact hiff
  · intro hint
    have hadj := hiff.mpr hint
    rw [hrow, getCol_annotated_score, hadj]
    rfl
  · intro hint
    have hadj : seriesIntersectsAny (wetlands_buffer wetlands)
        (parcels.rows.get ⟨i, hi⟩).geom = false := by
      rcases hval : seriesIntersectsAny (wetlands_buffer wetlands)
          (parcels.rows.get ⟨i, hi⟩).geom with _ | _
      · rfl
      · exact absurd (hiff.mp hval) hint
    rw [hrow, getCol_annotated_score, hadj]
    rfl

/-- Claim C3 witness: one parcel and one wetland 40 units apart in a
projected frame, with the 100-unit buffer reaching the parcel. -/
theorem C3_annotate_scores_witness :
    (∀ f ∈ (GeoFrame.mk CRS.projected
        [Feature.mk (Rect.mk 0 10 0 10) []]).rows, f.geom.valid) ∧
      (∀ f ∈ (GeoFrame.mk CRS.projected
        [Feature.mk (Rect.mk 50 60 0 10) []]).rows, f.geom.valid) ∧
      (0 < (GeoFrame.mk CRS.projected
        [Feature.mk (Rect.mk 0 10 0 10) []]).rows.length) ∧
      (∃ hi' : 0 < (preprocess_data none
          (GeoFrame.mk CRS.projected [Feature.mk (Rect.mk 0 10 0 10) []])
          (GeoFrame.mk CRS.projected
            [Feature.mk (Rect.mk 50 60 0 10) []])).rows.length,
        (getCol ((preprocess_data none
              (GeoFrame.mk CRS.projected
                [Feature.mk (Rect.mk 0 10 0 10) []])
              (GeoFrame.mk CRS.projected
                [Feature.mk (Rect.mk 50 60 0 10) []])).rows.get
              ⟨0, hi'⟩).attrs "wetland_adjacent" = some (Val.b true) ↔
          intersectsRegion ((GeoFrame.mk CRS.projected
              [Feature.mk (Rect.mk 0 10 0 10) []]).rows.get
              ⟨0, by decide⟩).geom
            (bufferUnionRegion ((GeoFrame.mk CRS.projected
              [Feature.mk (Rect.mk 50 60 0 10) []]).rows.map
                (fun f => f.geom)) 100)) ∧
        (intersectsRegion ((GeoFrame.mk CRS.projected
              [Feature.mk (Rect.mk 0 10 0 10) []]).rows.get
              ⟨0, by decide⟩).geom
            (bufferUnionRegion ((GeoFrame.mk CRS.projected
              [Feature.mk (Rect.mk 50 60 0 10) []]).rows.map
                (fun f => f.geom)) 100) →
          getCol ((preprocess_data none
              (GeoFrame.mk CRS.projected
                [Feature.mk (Rect.mk 0 10 0 10) []])
              (GeoFrame.mk CRS.projected
                [Feature.mk (Rect.mk 50 60 0 10) []])).rows.get
              ⟨0, hi'⟩).attrs "total_score" = some (Val.i 1)) ∧
        (¬ intersectsRegion ((GeoFrame.mk CRS.projected
              [Feature.mk (Rect.mk 0 10 0 10) []]).rows.get
              ⟨0, by decide⟩).geom
            (bufferUnionRegion ((GeoFrame.mk CRS.projected
              [Feature.mk (Rect.mk 50 60 0 10) []]).rows.map
                (fun f => f.geom)) 100) →
          getCol ((preprocess_data none
              (GeoFrame.mk CRS.projected
                [Feature.mk (Rect.mk 0 10 0 10) []])
              (GeoFrame.mk CRS.projected
                [Feature.mk (Rect.mk 50 60 0 10) []])).rows.get
              ⟨0, hi'⟩).attrs "total_score" = some (Val.i 0))) :=
  ⟨by decide, by decide, by decide,
    C3_annotate_scores
      (GeoFrame.mk CRS.projected [Feature.mk (Rect.mk 0 10 0 10) []])
      (GeoFrame.mk CRS.projected [Feature.mk (Rect.mk 50 60 0 10) []])
      (by decide) (by decide) 0 (by decide)⟩
